import Mathlib

/-!
Shallow embedding of `src/common/useAutoScroll/useAutoScroll.tsx`.

The hook drives an auto-scroll loop: each animation frame, `checkScroll`
reads the cached scroll parent, its cached bounding rectangle, and the last
observed pointer position, classifies the pointer against four edge
gutters, computes scroll deltas proportional to penetration depth, writes
rounded and clamped scroll offsets, invokes `onScroll`, and reschedules
itself.  Coordinates and scroll offsets are modelled as rationals (ℚ);
`Math.round` is modelled exactly (round half toward positive infinity).
-/

namespace AutoScroll

/-- A DOM bounding rectangle as used by `checkScroll` (`parentRect`):
only the `top`, `left`, `right`, `bottom` fields are read. -/
structure Rect where
  top : ℚ
  left : ℚ
  right : ℚ
  bottom : ℚ
deriving DecidableEq

/-- The scrollable parent element (`parent`): the fields `checkScroll`
reads (`scrollLeft`, `scrollTop`) and the clamp bounds it uses
(`scrollWidth`, `scrollHeight`). -/
structure ScrollElement where
  scrollLeft : ℚ
  scrollTop : ℚ
  scrollWidth : ℚ
  scrollHeight : ℚ
deriving DecidableEq

/-- JavaScript `Math.round`: rounds half toward positive infinity,
`Math.round(x) = ⌊x + 0.5⌋`. -/
def jsRound (q : ℚ) : ℤ := ⌊q + 1/2⌋

/-- `const edgeBottom = parentRect.bottom - size` (line 38). -/
def edgeBottom (r : Rect) (size : ℚ) : ℚ := r.bottom - size

/-- `const edgeLeft = parentRect.left + size` (line 39). -/
def edgeLeft (r : Rect) (size : ℚ) : ℚ := r.left + size

/-- `const edgeRight = parentRect.right - size` (line 40). -/
def edgeRight (r : Rect) (size : ℚ) : ℚ := r.right - size

/-- `const edgeTop = parentRect.top + size` (line 41). -/
def edgeTop (r : Rect) (size : ℚ) : ℚ := r.top + size

/-- `const isEdgeBottom = positionY > edgeBottom` (line 44). -/
def isEdgeBottom (r : Rect) (size positionY : ℚ) : Bool := positionY > edgeBottom r size

/-- `const isEdgeLeft = positionX < edgeLeft` (line 45). -/
def isEdgeLeft (r : Rect) (size positionX : ℚ) : Bool := positionX < edgeLeft r size

/-- `const isEdgeRight = positionX > edgeRight` (line 46). -/
def isEdgeRight (r : Rect) (size positionX : ℚ) : Bool := positionX > edgeRight r size

/-- `const isEdgeTop = positionY < edgeTop` (line 47). -/
def isEdgeTop (r : Rect) (size positionY : ℚ) : Bool := positionY < edgeTop r size

/-- Lines 53 and 56-60: `let nextScrollLeft = parent.scrollLeft;` then
`if (isEdgeLeft) nextScrollLeft -= (edgeLeft - positionX) * intensity;
else if (isEdgeRight) nextScrollLeft += (positionX - edgeRight) * intensity;`. -/
def nextScrollLeft (r : Rect) (size intensity scrollLeft positionX : ℚ) : ℚ :=
  if isEdgeLeft r size positionX then
    scrollLeft - (edgeLeft r size - positionX) * intensity
  else if isEdgeRight r size positionX then
    scrollLeft + (positionX - edgeRight r size) * intensity
  else
    scrollLeft

/-- Lines 54 and 62-66: `let nextScrollTop = parent.scrollTop;` then
`if (isEdgeTop) nextScrollTop -= (edgeTop - positionY) * intensity;
else if (isEdgeBottom) nextScrollTop += (positionY - edgeBottom) * intensity;`. -/
def nextScrollTop (r : Rect) (size intensity scrollTop positionY : ℚ) : ℚ :=
  if isEdgeTop r size positionY then
    scrollTop - (edgeTop r size - positionY) * intensity
  else if isEdgeBottom r size positionY then
    scrollTop + (positionY - edgeBottom r size) * intensity
  else
    scrollTop

/-- Line 69: `Math.max(0, Math.min(Math.round(next), parent.scrollWidth))`
(and the analogous line 70 for the vertical axis). -/
def clampedWrite (next bound : ℚ) : ℚ := max 0 (min (jsRound next : ℚ) bound)

/-- Observable outcome of one invocation of `checkScroll`:
the pair written to `(parent.scrollLeft, parent.scrollTop)` if any, the
arguments of the `onScroll` call if it was invoked, and whether
`checkStep(checkScroll)` rescheduled the loop. -/
structure FrameResult where
  write : Option (ℚ × ℚ)
  onScrollCall : Option (ℚ × ℚ)
  rescheduled : Bool
deriving DecidableEq

/-- `checkScroll` (lines 27-76), one frame of the loop.  The four `Option`
arguments are the current values of `parentRef`, `parentRectRef`,
`positionXRef` and `positionYRef`; `none` models `null`. -/
def checkScroll (size intensity : ℚ) (parent? : Option ScrollElement)
    (parentRect? : Option Rect) (positionX? positionY? : Option ℚ) : FrameResult :=
  match parent?, parentRect?, positionX?, positionY? with
  | some parent, some parentRect, some positionX, some positionY =>
    if ¬ isEdgeBottom parentRect size positionY ∧ ¬ isEdgeLeft parentRect size positionX ∧
        ¬ isEdgeRight parentRect size positionX ∧ ¬ isEdgeTop parentRect size positionY then
      { write := none, onScrollCall := none, rescheduled := true }
    else
      { write := some
          (clampedWrite (nextScrollLeft parentRect size intensity parent.scrollLeft positionX)
            parent.scrollWidth,
           clampedWrite (nextScrollTop parentRect size intensity parent.scrollTop positionY)
            parent.scrollHeight),
        onScrollCall := some (positionX, positionY),
        rescheduled := true }
  | _, _, _, _ => { write := none, onScrollCall := none, rescheduled := true }

/-- One active touch point: the fields read by `handleTouchMove`. -/
structure Touch where
  clientX : ℚ
  clientY : ℚ
deriving DecidableEq

/-- `handleMouseMove` (lines 79-82): stores the event coordinates into the
position refs. -/
def handleMouseMove (clientX clientY : ℚ) : Option ℚ × Option ℚ :=
  (some clientX, some clientY)

/-- `handleTouchMove` (lines 83-86): reads `targetTouches[0].clientX` and
`targetTouches[0].clientY`.  When `targetTouches` is empty,
`targetTouches[0]` is `undefined` and the property access throws a
`TypeError`; this failure is modelled as `none`.  Otherwise the first
touch point's coordinates are stored and any further touches are ignored. -/
def handleTouchMove (targetTouches : List Touch) : Option (Option ℚ × Option ℚ) :=
  match targetTouches with
  | [] => none
  | t :: _ => some (some t.clientX, some t.clientY)

/-- The hook's mutable refs (lines 17-21) together with whether the
document-level `mousemove`/`touchmove` listeners are currently attached
(lines 99-100 and 119-120). -/
structure HookState where
  handle : Option ℕ
  parent : Option ScrollElement
  parentRect : Option Rect
  positionX : Option ℚ
  positionY : Option ℚ
  listenersAttached : Bool
deriving DecidableEq

/-- An external stimulus delivered to the hook: a document-level mouse-move,
a document-level touch-move, or the animation-frame scheduler firing. -/
inductive Event where
  | mouseMove (clientX clientY : ℚ)
  | touchMove (targetTouches : List Touch)
  | frame
deriving DecidableEq

/-- The observable effect of an event that runs no frame callback. -/
def noEffect : FrameResult := { write := none, onScrollCall := none, rescheduled := false }

/-- One delivered event.  Move events reach the handlers only while the
document-level listeners are attached; a `frame` event runs the scheduled
`checkScroll` callback only while a frame handle is outstanding
(`cancelAnimationFrame` prevents a canceled callback from firing), applies
its write to the scroll parent, and `checkStep` stores a fresh handle. -/
def stepEvent (size intensity : ℚ) (st : HookState) : Event → HookState × FrameResult
  | Event.mouseMove clientX clientY =>
    if st.listenersAttached then
      let p := handleMouseMove clientX clientY
      ({ st with positionX := p.1, positionY := p.2 }, noEffect)
    else
      (st, noEffect)
  | Event.touchMove targetTouches =>
    if st.listenersAttached then
      match handleTouchMove targetTouches with
      | some p => ({ st with positionX := p.1, positionY := p.2 }, noEffect)
      | none => (st, noEffect)
    else
      (st, noEffect)
  | Event.frame =>
    match st.handle with
    | none => (st, noEffect)
    | some h =>
      let res := checkScroll size intensity st.parent st.parentRect st.positionX st.positionY
      let parent' : Option ScrollElement :=
        match st.parent, res.write with
        | some p, some w => some { p with scrollLeft := w.1, scrollTop := w.2 }
        | p, _ => p
      ({ st with parent := parent', handle := some (h + 1) }, res)

/-- Delivers a list of events in order, collecting each event's effect. -/
def runEvents (size intensity : ℚ) (st : HookState) : List Event → HookState × List FrameResult
  | [] => (st, [])
  | e :: es =>
    let se := stepEvent size intensity st e
    let rest := runEvents size intensity se.1 es
    (rest.1, se.2 :: rest.2)

/-- The effect cleanup (lines 105-121): `if (handle)` cancel the scheduled
frame via the handle (JavaScript truthiness: `null` and `0` are falsy),
null out the handle and both position refs, and remove the two
document-level listeners.  Returns the new state and the handle passed to
`cancelAnimationFrame`, if any. -/
def cleanup (st : HookState) : HookState × Option ℕ :=
  let canceled : Option ℕ :=
    match st.handle with
    | some h => if h ≠ 0 then some h else none
    | none => none
  ({ st with handle := none, positionX := none, positionY := none, listenersAttached := false },
   canceled)

/-! ### Helper lemmas -/

lemma isEdgeBottom_iff {r : Rect} {size y : ℚ} :
    isEdgeBottom r size y = true ↔ y > r.bottom - size := by
  simp [isEdgeBottom, edgeBottom]

lemma isEdgeLeft_iff {r : Rect} {size x : ℚ} :
    isEdgeLeft r size x = true ↔ x < r.left + size := by
  simp [isEdgeLeft, edgeLeft]

lemma isEdgeRight_iff {r : Rect} {size x : ℚ} :
    isEdgeRight r size x = true ↔ x > r.right - size := by
  simp [isEdgeRight, edgeRight]

lemma isEdgeTop_iff {r : Rect} {size y : ℚ} :
    isEdgeTop r size y = true ↔ y < r.top + size := by
  simp [isEdgeTop, edgeTop]

lemma checkScroll_ready (size intensity x y : ℚ) (parent : ScrollElement) (r : Rect) :
    checkScroll size intensity (some parent) (some r) (some x) (some y) =
      if ¬ isEdgeBottom r size y ∧ ¬ isEdgeLeft r size x ∧
          ¬ isEdgeRight r size x ∧ ¬ isEdgeTop r size y then
        { write := none, onScrollCall := none, rescheduled := true }
      else
        { write := some
            (clampedWrite (nextScrollLeft r size intensity parent.scrollLeft x)
              parent.scrollWidth,
             clampedWrite (nextScrollTop r size intensity parent.scrollTop y)
              parent.scrollHeight),
          onScrollCall := some (x, y),
          rescheduled := true } := rfl

lemma nextScrollLeft_left {r : Rect} {size intensity s x : ℚ} (h : x < edgeLeft r size) :
    nextScrollLeft r size intensity s x = s - (edgeLeft r size - x) * intensity := by
  rw [nextScrollLeft, if_pos]
  simpa [isEdgeLeft_iff, edgeLeft] using h

lemma nextScrollLeft_right {r : Rect} {size intensity s x : ℚ}
    (h1 : ¬ x < edgeLeft r size) (h2 : edgeRight r size < x) :
    nextScrollLeft r size intensity s x = s + (x - edgeRight r size) * intensity := by
  rw [nextScrollLeft, if_neg, if_pos]
  · simpa [isEdgeRight_iff, edgeRight] using h2
  · simpa [isEdgeLeft_iff, edgeLeft] using h1

lemma nextScrollLeft_id {r : Rect} {size intensity s x : ℚ}
    (h1 : ¬ x < edgeLeft r size) (h2 : ¬ edgeRight r size < x) :
    nextScrollLeft r size intensity s x = s := by
  rw [nextScrollLeft, if_neg, if_neg]
  · simpa [isEdgeRight_iff, edgeRight] using h2
  · simpa [isEdgeLeft_iff, edgeLeft] using h1

lemma nextScrollTop_top {r : Rect} {size intensity s y : ℚ} (h : y < edgeTop r size) :
    nextScrollTop r size intensity s y = s - (edgeTop r size - y) * intensity := by
  rw [nextScrollTop, if_pos]
  simpa [isEdgeTop_iff, edgeTop] using h

lemma nextScrollTop_bottom {r : Rect} {size intensity s y : ℚ}
    (h1 : ¬ y < edgeTop r size) (h2 : edgeBottom r size < y) :
    nextScrollTop r size intensity s y = s + (y - edgeBottom r size) * intensity := by
  rw [nextScrollTop, if_neg, if_pos]
  · simpa [isEdgeBottom_iff, edgeBottom] using h2
  · simpa [isEdgeTop_iff, edgeTop] using h1

lemma nextScrollTop_id {r : Rect} {size intensity s y : ℚ}
    (h1 : ¬ y < edgeTop r size) (h2 : ¬ edgeBottom r size < y) :
    nextScrollTop r size intensity s y = s := by
  rw [nextScrollTop, if_neg, if_neg]
  · simpa [isEdgeBottom_iff, edgeBottom] using h2
  · simpa [isEdgeTop_iff, edgeTop] using h1

lemma clampedWrite_nonneg (n b : ℚ) : 0 ≤ clampedWrite n b := le_max_left 0 _

lemma clampedWrite_le {n b : ℚ} (hb : 0 ≤ b) : clampedWrite n b ≤ b :=
  max_le hb (min_le_right _ _)

/-! ### Claim theorems -/

/-- C2: gutter classification.  The pointer is in the top gutter exactly when
`positionY < bounds.top + size`, in the bottom gutter exactly when
`positionY > bounds.bottom - size`, in the left gutter exactly when
`positionX < bounds.left + size`, and in the right gutter exactly when
`positionX > bounds.right - size`; all four comparisons are strict, so a
pointer exactly on a gutter boundary line is not in that gutter, and a ready
frame performs a scroll write exactly when one of the four strict
comparisons holds. -/
theorem gutter_classification (r : Rect) (size intensity x y : ℚ) (parent : ScrollElement) :
    (isEdgeTop r size y = true ↔ y < r.top + size) ∧
    (isEdgeBottom r size y = true ↔ y > r.bottom - size) ∧
    (isEdgeLeft r size x = true ↔ x < r.left + size) ∧
    (isEdgeRight r size x = true ↔ x > r.right - size) ∧
    isEdgeTop r size (r.top + size) = false ∧
    isEdgeBottom r size (r.bottom - size) = false ∧
    isEdgeLeft r size (r.left + size) = false ∧
    isEdgeRight r size (r.right - size) = false ∧
    ((checkScroll size intensity (some parent) (some r) (some x) (some y)).write ≠ none ↔
      (y < r.top + size ∨ y > r.bottom - size ∨ x < r.left + size ∨ x > r.right - size)) := by
  refine ⟨isEdgeTop_iff, isEdgeBottom_iff, isEdgeLeft_iff, isEdgeRight_iff,
    by simp [isEdgeTop, edgeTop], by simp [isEdgeBottom, edgeBottom],
    by simp [isEdgeLeft, edgeLeft], by simp [isEdgeRight, edgeRight], ?_⟩
  rw [checkScroll_ready]
  by_cases h : ¬ isEdgeBottom r size y ∧ ¬ isEdgeLeft r size x ∧
      ¬ isEdgeRight r size x ∧ ¬ isEdgeTop r size y
  · rw [if_pos h]
    simp only [isEdgeBottom_iff, isEdgeLeft_iff, isEdgeRight_iff, isEdgeTop_iff,
      Bool.not_eq_true] at h
    obtain ⟨hb, hl, hr, ht⟩ := h
    simp only [ne_eq, not_true_eq_false, false_iff]
    push_neg
    exact ⟨le_of_not_lt ht, le_of_not_lt hb, le_of_not_lt hl, le_of_not_lt hr⟩
  · rw [if_neg h]
    simp only [ne_eq, reduceCtorEq, not_false_eq_true, true_iff]
    push_neg at h
    rcases Classical.em (isEdgeBottom r size y = true) with hb | hb
    · exact Or.inr (Or.inl (isEdgeBottom_iff.mp hb))
    rcases Classical.em (isEdgeLeft r size x = true) with hl | hl
    · exact Or.inr (Or.inr (Or.inl (isEdgeLeft_iff.mp hl)))
    rcases Classical.em (isEdgeRight r size x = true) with hr | hr
    · exact Or.inr (Or.inr (Or.inr (isEdgeRight_iff.mp hr)))
    have ht := h (by simpa using hb) (by simpa using hl) (by simpa using hr)
    exact Or.inl (isEdgeTop_iff.mp (by simpa using ht))

/-- C1: concrete scenario.  With cached bounds `{top:0, left:0, right:500,
bottom:300}`, `size = 50`, `intensity = 0.2` and pointer `(520, 150)`:
`edgeRight = 450`, `isEdgeRight` is true, the horizontal delta is
`(520 - 450) * 0.2 = 14`, the new `scrollLeft` is the old `scrollLeft`
plus 14 rounded to the nearest integer and clamped to `[0, scrollWidth]`,
and `onScroll(520, 150)` is invoked. -/
theorem checkScroll_concrete_right_gutter (parent : ScrollElement) :
    edgeRight ⟨0, 0, 500, 300⟩ 50 = 450 ∧
    isEdgeRight ⟨0, 0, 500, 300⟩ 50 520 = true ∧
    ((520 : ℚ) - edgeRight ⟨0, 0, 500, 300⟩ 50) * (1/5) = 14 ∧
    (checkScroll 50 (1/5) (some parent) (some ⟨0, 0, 500, 300⟩)
        (some 520) (some 150)).write =
      some (max 0 (min (jsRound (parent.scrollLeft + 14) : ℚ) parent.scrollWidth),
            max 0 (min (jsRound parent.scrollTop : ℚ) parent.scrollHeight)) ∧
    (checkScroll 50 (1/5) (some parent) (some ⟨0, 0, 500, 300⟩)
        (some 520) (some 150)).onScrollCall = some (520, 150) := by
  refine ⟨by norm_num [edgeRight], by norm_num [isEdgeRight, edgeRight],
    by norm_num [edgeRight], ?_, ?_⟩ <;>
    norm_num [checkScroll_ready, isEdgeBottom, isEdgeLeft, isEdgeRight, isEdgeTop,
      edgeBottom, edgeLeft, edgeRight, edgeTop, nextScrollLeft, nextScrollTop, clampedWrite]

/-- C3: no-op outside gutters.  Whenever none of the four gutter predicates
holds — in particular everywhere inside
`[left+size, right-size] × [top+size, bottom-size]` — the frame performs no
scroll mutation, does not invoke `onScroll`, and only reschedules itself. -/
theorem noop_outside_gutters (size intensity x y : ℚ) (parent : ScrollElement) (r : Rect)
    (hb : isEdgeBottom r size y = false) (hl : isEdgeLeft r size x = false)
    (hr : isEdgeRight r size x = false) (ht : isEdgeTop r size y = false) :
    checkScroll size intensity (some parent) (some r) (some x) (some y) =
      { write := none, onScrollCall := none, rescheduled := true } := by
  rw [checkScroll_ready, if_pos]
  simp [hb, hl, hr, ht]

/-- Witness for C3 at bounds `{0,0,500,300}`, `size=50`, pointer `(250,150)`
(dead center): no predicate holds and the frame is a pure reschedule. -/
theorem noop_outside_gutters_witness :
    isEdgeBottom ⟨0, 0, 500, 300⟩ 50 150 = false ∧
    isEdgeLeft ⟨0, 0, 500, 300⟩ 50 250 = false ∧
    isEdgeRight ⟨0, 0, 500, 300⟩ 50 250 = false ∧
    isEdgeTop ⟨0, 0, 500, 300⟩ 50 150 = false ∧
    checkScroll 50 (1/5) (some ⟨0, 0, 1000, 1000⟩) (some ⟨0, 0, 500, 300⟩)
        (some 250) (some 150) =
      { write := none, onScrollCall := none, rescheduled := true } :=
  ⟨by norm_num [isEdgeBottom, edgeBottom], by norm_num [isEdgeLeft, edgeLeft],
   by norm_num [isEdgeRight, edgeRight], by norm_num [isEdgeTop, edgeTop],
   noop_outside_gutters 50 (1/5) 250 150 ⟨0, 0, 1000, 1000⟩ ⟨0, 0, 500, 300⟩
     (by norm_num [isEdgeBottom, edgeBottom]) (by norm_num [isEdgeLeft, edgeLeft])
     (by norm_num [isEdgeRight, edgeRight]) (by norm_num [isEdgeTop, edgeTop])⟩

/-- C6: not-ready frames are no-ops.  When the scroll parent, the cached
bounds, or either pointer coordinate is still `null`, the frame performs no
scroll mutation and no `onScroll` call, and simply reschedules itself. -/
theorem not_ready_noop (size intensity : ℚ) (parent? : Option ScrollElement)
    (parentRect? : Option Rect) (positionX? positionY? : Option ℚ)
    (h : parent? = none ∨ parentRect? = none ∨ positionX? = none ∨ positionY? = none) :
    checkScroll size intensity parent? parentRect? positionX? positionY? =
      { write := none, onScrollCall := none, rescheduled := true } := by
  cases parent? <;> cases parentRect? <;> cases positionX? <;> cases positionY? <;>
    first
      | rfl
      | simp at h

/-- Witness for C6: a frame with a parent and bounds but no observed pointer
position yet is a pure reschedule. -/
theorem not_ready_noop_witness :
    ((some ⟨0, 0, 1000, 1000⟩ : Option ScrollElement) = none ∨
      (some ⟨0, 0, 500, 300⟩ : Option Rect) = none ∨
      (none : Option ℚ) = none ∨ (some (150 : ℚ)) = none) ∧
    checkScroll 50 (1/5) (some ⟨0, 0, 1000, 1000⟩) (some ⟨0, 0, 500, 300⟩)
        none (some 150) =
      { write := none, onScrollCall := none, rescheduled := true } :=
  ⟨Or.inr (Or.inr (Or.inl rfl)),
   not_ready_noop 50 (1/5) (some ⟨0, 0, 1000, 1000⟩) (some ⟨0, 0, 500, 300⟩)
     none (some 150) (Or.inr (Or.inr (Or.inl rfl)))⟩

/-- C4: monotonic linear speed ramp.  With positive intensity and gutters
that fit (`2*size ≤ width`), the horizontal delta is zero when the pointer
sits exactly on `edgeRight`, equals `penetration * intensity` for any
penetration depth `d ≥ 0` past `edgeRight` (a linear function with slope
`intensity`, with no explicit maximum), is strictly increasing in the
penetration depth, and symmetrically the left-gutter delta magnitude is
`d * intensity` at depth `d` past `edgeLeft`. -/
theorem speed_ramp (r : Rect) (size intensity scrollLeft : ℚ)
    (hI : 0 < intensity) (hW : 2 * size ≤ r.right - r.left) :
    nextScrollLeft r size intensity scrollLeft (edgeRight r size) - scrollLeft = 0 ∧
    (∀ d : ℚ, 0 ≤ d →
      nextScrollLeft r size intensity scrollLeft (edgeRight r size + d) - scrollLeft =
        d * intensity) ∧
    (∀ d e : ℚ, 0 ≤ d → d < e →
      nextScrollLeft r size intensity scrollLeft (edgeRight r size + d) - scrollLeft <
        nextScrollLeft r size intensity scrollLeft (edgeRight r size + e) - scrollLeft) ∧
    (∀ d : ℚ, 0 ≤ d →
      scrollLeft - nextScrollLeft r size intensity scrollLeft (edgeLeft r size - d) =
        d * intensity) := by
  have hLE : edgeLeft r size ≤ edgeRight r size := by
    simp only [edgeLeft, edgeRight]
    linarith
  have key : ∀ d : ℚ, 0 ≤ d →
      nextScrollLeft r size intensity scrollLeft (edgeRight r size + d) - scrollLeft =
        d * intensity := by
    intro d hd
    rcases eq_or_lt_of_le hd with h0 | h0
    · rw [← h0, add_zero, nextScrollLeft_id (not_lt.mpr hLE) (lt_irrefl _)]
      ring
    · rw [nextScrollLeft_right (not_lt.mpr (hLE.trans (by linarith))) (by linarith)]
      ring
  refine ⟨by simpa using key 0 le_rfl, key, ?_, ?_⟩
  · intro d e hd hde
    rw [key d hd, key e (hd.trans hde.le)]
    exact mul_lt_mul_of_pos_right hde hI
  · intro d hd
    rcases eq_or_lt_of_le hd with h0 | h0
    · rw [← h0, sub_zero,
        nextScrollLeft_id (lt_irrefl _) (not_lt.mpr hLE)]
      ring
    · rw [nextScrollLeft_left (by linarith)]
      ring

/-- Witness for C4 at bounds `{0,0,500,300}`, `size=50`, `intensity=0.2`,
`scrollLeft=0`, penetration depth 10 past `edgeRight`: the delta is
`10 * 0.2 = 2`. -/
theorem speed_ramp_witness :
    0 < (1/5 : ℚ) ∧
    2 * (50 : ℚ) ≤ (Rect.mk 0 0 500 300).right - (Rect.mk 0 0 500 300).left ∧
    nextScrollLeft ⟨0, 0, 500, 300⟩ 50 (1/5) 0 (edgeRight ⟨0, 0, 500, 300⟩ 50 + 10) - 0 =
      10 * (1/5) :=
  ⟨by norm_num, by norm_num,
   (speed_ramp ⟨0, 0, 500, 300⟩ 50 (1/5) 0 (by norm_num) (by norm_num)).2.1 10 (by norm_num)⟩

/-- C5: clamping invariant.  With non-negative scrollable dimensions, every
pair actually written by a frame lies in `[0, scrollWidth] × [0, scrollHeight]`
inclusive. -/
theorem scroll_write_clamped (size intensity x y l t : ℚ) (parent : ScrollElement) (r : Rect)
    (hW : 0 ≤ parent.scrollWidth) (hH : 0 ≤ parent.scrollHeight)
    (h : (checkScroll size intensity (some parent) (some r) (some x) (some y)).write =
      some (l, t)) :
    0 ≤ l ∧ l ≤ parent.scrollWidth ∧ 0 ≤ t ∧ t ≤ parent.scrollHeight := by
  rw [checkScroll_ready] at h
  split at h
  · simp at h
  · simp only [Option.some.injEq, Prod.mk.injEq] at h
    obtain ⟨hl, ht⟩ := h
    rw [← hl, ← ht]
    exact ⟨clampedWrite_nonneg _ _, clampedWrite_le hW,
      clampedWrite_nonneg _ _, clampedWrite_le hH⟩

/-- Witness for C5: a right-gutter frame at bounds `{0,0,500,300}` with
`scrollWidth = scrollHeight = 1000` writes `(14, 0)`, which lies inside
`[0, 1000] × [0, 1000]`. -/
theorem scroll_write_clamped_witness :
    0 ≤ (ScrollElement.mk 0 0 1000 1000).scrollWidth ∧
    0 ≤ (ScrollElement.mk 0 0 1000 1000).scrollHeight ∧
    (checkScroll 50 (1/5) (some ⟨0, 0, 1000, 1000⟩) (some ⟨0, 0, 500, 300⟩)
        (some 520) (some 150)).write = some (14, 0) ∧
    (0 ≤ (14 : ℚ) ∧ (14 : ℚ) ≤ (ScrollElement.mk 0 0 1000 1000).scrollWidth ∧
      0 ≤ (0 : ℚ) ∧ (0 : ℚ) ≤ (ScrollElement.mk 0 0 1000 1000).scrollHeight) := by
  have h14 : jsRound (14 : ℚ) = 14 := by norm_num [jsRound, Int.floor_eq_iff]
  have h0 : jsRound (0 : ℚ) = 0 := by norm_num [jsRound, Int.floor_eq_iff]
  have hw : (checkScroll 50 (1/5) (some ⟨0, 0, 1000, 1000⟩) (some ⟨0, 0, 500, 300⟩)
      (some 520) (some 150)).write = some (14, 0) := by
    norm_num [checkScroll_ready, isEdgeBottom, isEdgeLeft, isEdgeRight, isEdgeTop,
      edgeBottom, edgeLeft, edgeRight, edgeTop, nextScrollLeft, nextScrollTop,
      clampedWrite, h14, h0]
  exact ⟨by norm_num, by norm_num, hw,
    scroll_write_clamped 50 (1/5) 520 150 14 0 ⟨0, 0, 1000, 1000⟩ ⟨0, 0, 500, 300⟩
      (by norm_num) (by norm_num) hw⟩

/-- C7: horizontal (and vertical) mutual exclusivity.  When the gutters fit
(`2*size < width`, `2*size < height`), no pointer position is in both the
left and right gutters, or in both the top and bottom gutters; and by the
else-if priority, at most one delta is ever applied per axis: when the left
predicate holds the horizontal offset gets exactly the left delta, and the
right delta is applied only when the left predicate fails (likewise
vertically). -/
theorem gutters_mutually_exclusive (r : Rect) (size intensity sL sT x y : ℚ)
    (hx : 2 * size < r.right - r.left) (hy : 2 * size < r.bottom - r.top) :
    ¬ (isEdgeLeft r size x = true ∧ isEdgeRight r size x = true) ∧
    ¬ (isEdgeTop r size y = true ∧ isEdgeBottom r size y = true) ∧
    (isEdgeLeft r size x = true →
      nextScrollLeft r size intensity sL x = sL - (edgeLeft r size - x) * intensity) ∧
    (isEdgeTop r size y = true →
      nextScrollTop r size intensity sT y = sT - (edgeTop r size - y) * intensity) ∧
    (isEdgeLeft r size x = false → isEdgeRight r size x = true →
      nextScrollLeft r size intensity sL x = sL + (x - edgeRight r size) * intensity) ∧
    (isEdgeTop r size y = false → isEdgeBottom r size y = true →
      nextScrollTop r size intensity sT y = sT + (y - edgeBottom r size) * intensity) := by
  refine ⟨?_, ?_, ?_, ?_, ?_, ?_⟩
  · rintro ⟨hl, hr⟩
    rw [isEdgeLeft_iff] at hl
    rw [isEdgeRight_iff] at hr
    linarith
  · rintro ⟨ht, hb⟩
    rw [isEdgeTop_iff] at ht
    rw [isEdgeBottom_iff] at hb
    linarith
  · intro hl
    exact nextScrollLeft_left (by simpa [edgeLeft] using isEdgeLeft_iff.mp hl)
  · intro ht
    exact nextScrollTop_top (by simpa [edgeTop] using isEdgeTop_iff.mp ht)
  · intro hlf hrt
    refine nextScrollLeft_right ?_ (by simpa [edgeRight] using isEdgeRight_iff.mp hrt)
    intro hc
    exact absurd (isEdgeLeft_iff.mpr (by simpa [edgeLeft] using hc)) (by simp [hlf])
  · intro htf hbt
    refine nextScrollTop_bottom ?_ (by simpa [edgeBottom] using isEdgeBottom_iff.mp hbt)
    intro hc
    exact absurd (isEdgeTop_iff.mpr (by simpa [edgeTop] using hc)) (by simp [htf])

/-- Witness for C7 at bounds `{0,0,500,300}`, `size=50`: the gutters fit and
position `x = 20` is not simultaneously in the left and right gutters. -/
theorem gutters_mutually_exclusive_witness :
    2 * (50 : ℚ) < (Rect.mk 0 0 500 300).right - (Rect.mk 0 0 500 300).left ∧
    2 * (50 : ℚ) < (Rect.mk 0 0 500 300).bottom - (Rect.mk 0 0 500 300).top ∧
    ¬ (isEdgeLeft ⟨0, 0, 500, 300⟩ 50 20 = true ∧
        isEdgeRight ⟨0, 0, 500, 300⟩ 50 20 = true) :=
  ⟨by norm_num, by norm_num,
   (gutters_mutually_exclusive ⟨0, 0, 500, 300⟩ 50 (1/5) 0 0 20 150
     (by norm_num) (by norm_num)).1⟩

/-- C8 counterexample: a touch-move event whose target-touch list is empty is
not handled without failure — `targetTouches[0]` is `undefined` and reading
`.clientX` throws, modelled as `none`. -/
theorem handleTouchMove_empty_fails : handleTouchMove [] = none := rfl

/-- C8 (amended): every delivered touch-move event with at least one active
touch point is handled without failure, taking coordinates from the first
touch point and ignoring additional simultaneous touches; an event with an
empty target-touch list instead throws. -/
theorem handleTouchMove_nonempty (t : Touch) (rest : List Touch) :
    handleTouchMove (t :: rest) = some (some t.clientX, some t.clientY) := rfl

lemma stepEvent_inert (size intensity : ℚ) (st : HookState) (e : Event)
    (h1 : st.handle = none) (h2 : st.listenersAttached = false) :
    stepEvent size intensity st e = (st, noEffect) := by
  cases e with
  | mouseMove cx cy => simp [stepEvent, h2]
  | touchMove ts => simp [stepEvent, h2]
  | frame => simp [stepEvent, h1]

lemma runEvents_inert (size intensity : ℚ) (st : HookState)
    (h1 : st.handle = none) (h2 : st.listenersAttached = false) :
    ∀ evs : List Event, ∀ res ∈ (runEvents size intensity st evs).2,
      res.write = none ∧ res.onScrollCall = none := by
  intro evs
  induction evs with
  | nil => simp [runEvents]
  | cons e es ih =>
    intro res hres
    simp only [runEvents, stepEvent_inert size intensity st e h1 h2] at hres
    rcases List.mem_cons.mp hres with h | h
    · rw [h]
      exact ⟨rfl, rfl⟩
    · exact ih res h

/-- C9: lifecycle cleanup.  Tearing the hook down cancels the outstanding
scheduled frame via its handle, resets the stored handle and pointer
position to null, detaches both document-level listeners, and from the
resulting state no sequence of subsequently delivered events — pointer
moves, touch moves or animation frames — ever produces a scroll write or an
`onScroll` call. -/
theorem lifecycle_cleanup (size intensity : ℚ) (st : HookState) (h : ℕ)
    (hh : st.handle = some h) (hnz : h ≠ 0) :
    (cleanup st).2 = some h ∧
    (cleanup st).1.handle = none ∧
    (cleanup st).1.positionX = none ∧
    (cleanup st).1.positionY = none ∧
    (cleanup st).1.listenersAttached = false ∧
    (∀ evs : List Event, ∀ res ∈ (runEvents size intensity (cleanup st).1 evs).2,
      res.write = none ∧ res.onScrollCall = none) := by
  refine ⟨by simp [cleanup, hh, hnz], rfl, rfl, rfl, rfl, ?_⟩
  exact runEvents_inert size intensity _ rfl rfl

/-- Witness for C9: cleaning up a state holding frame handle 7 cancels
handle 7 and clears the handle. -/
theorem lifecycle_cleanup_witness :
    (HookState.mk (some 7) none none (some 3) (some 4) true).handle = some 7 ∧
    (7 : ℕ) ≠ 0 ∧
    (cleanup ⟨some 7, none, none, some 3, some 4, true⟩).2 = some 7 ∧
    (cleanup ⟨some 7, none, none, some 3, some 4, true⟩).1.handle = none :=
  ⟨rfl, by decide,
   (lifecycle_cleanup 50 (1/5) ⟨some 7, none, none, some 3, some 4, true⟩ 7 rfl
     (by decide)).1,
   (lifecycle_cleanup 50 (1/5) ⟨some 7, none, none, some 3, some 4, true⟩ 7 rfl
     (by decide)).2.1⟩

/-- C10: implicit both-axes write.  Whenever at least one gutter predicate
holds, the frame writes both `scrollLeft` and `scrollTop` (each as the
rounded, clamped value of its computed next offset) and invokes `onScroll`
with the pointer coordinates; on an axis none of whose predicates holds the
computed next offset is just the current offset, so that axis is rewritten
as its current value rounded and clamped. -/
theorem both_axes_write (size intensity x y : ℚ) (parent : ScrollElement) (r : Rect)
    (h : isEdgeBottom r size y = true ∨ isEdgeLeft r size x = true ∨
      isEdgeRight r size x = true ∨ isEdgeTop r size y = true) :
    (checkScroll size intensity (some parent) (some r) (some x) (some y)).write =
      some (clampedWrite (nextScrollLeft r size intensity parent.scrollLeft x)
              parent.scrollWidth,
            clampedWrite (nextScrollTop r size intensity parent.scrollTop y)
              parent.scrollHeight) ∧
    (checkScroll size intensity (some parent) (some r) (some x) (some y)).onScrollCall =
      some (x, y) ∧
    (isEdgeLeft r size x = false → isEdgeRight r size x = false →
      nextScrollLeft r size intensity parent.scrollLeft x = parent.scrollLeft) ∧
    (isEdgeTop r size y = false → isEdgeBottom r size y = false →
      nextScrollTop r size intensity parent.scrollTop y = parent.scrollTop) := by
  have hcond : ¬ (¬ isEdgeBottom r size y ∧ ¬ isEdgeLeft r size x ∧
      ¬ isEdgeRight r size x ∧ ¬ isEdgeTop r size y) := by
    rcases h with h | h | h | h <;> simp [h]
  refine ⟨by rw [checkScroll_ready, if_neg hcond], by rw [checkScroll_ready, if_neg hcond],
    ?_, ?_⟩
  · intro h1 h2
    refine nextScrollLeft_id ?_ ?_
    · intro hc
      exact absurd (isEdgeLeft_iff.mpr (by simpa [edgeLeft] using hc)) (by simp [h1])
    · intro hc
      exact absurd (isEdgeRight_iff.mpr (by simpa [edgeRight] using hc)) (by simp [h2])
  · intro h1 h2
    refine nextScrollTop_id ?_ ?_
    · intro hc
      exact absurd (isEdgeTop_iff.mpr (by simpa [edgeTop] using hc)) (by simp [h1])
    · intro hc
      exact absurd (isEdgeBottom_iff.mpr (by simpa [edgeBottom] using hc)) (by simp [h2])

/-- Witness for C10: at bounds `{0,0,500,300}`, pointer `(520,150)` (right
gutter only), a parent with fractional `scrollTop = 1/2` gets its vertical
offset rewritten to `1`; a parent already at `scrollLeft = scrollWidth =
1000` gets the numerically unchanged pair `(1000, 0)` written, and
`onScroll` is still invoked. -/
theorem both_axes_write_witness :
    (isEdgeBottom ⟨0, 0, 500, 300⟩ 50 150 = true ∨
      isEdgeLeft ⟨0, 0, 500, 300⟩ 50 520 = true ∨
      isEdgeRight ⟨0, 0, 500, 300⟩ 50 520 = true ∨
      isEdgeTop ⟨0, 0, 500, 300⟩ 50 150 = true) ∧
    (checkScroll 50 (1/5) (some ⟨0, 1/2, 1000, 1000⟩) (some ⟨0, 0, 500, 300⟩)
        (some 520) (some 150)).write = some (14, 1) ∧
    (checkScroll 50 (1/5) (some ⟨1000, 0, 1000, 1000⟩) (some ⟨0, 0, 500, 300⟩)
        (some 520) (some 150)).write = some (1000, 0) ∧
    (checkScroll 50 (1/5) (some ⟨1000, 0, 1000, 1000⟩) (some ⟨0, 0, 500, 300⟩)
        (some 520) (some 150)).onScrollCall = some (520, 150) := by
  have hor : isEdgeBottom ⟨0, 0, 500, 300⟩ 50 150 = true ∨
      isEdgeLeft ⟨0, 0, 500, 300⟩ 50 520 = true ∨
      isEdgeRight ⟨0, 0, 500, 300⟩ 50 520 = true ∨
      isEdgeTop ⟨0, 0, 500, 300⟩ 50 150 = true :=
    Or.inr (Or.inr (Or.inl (by norm_num [isEdgeRight, edgeRight])))
  have hr14 : jsRound (14 : ℚ) = 14 := by norm_num [jsRound, Int.floor_eq_iff]
  have hrHalf : jsRound (1/2 : ℚ) = 1 := by norm_num [jsRound, Int.floor_eq_iff]
  have hr1014 : jsRound (1014 : ℚ) = 1014 := by norm_num [jsRound, Int.floor_eq_iff]
  have hr0 : jsRound (0 : ℚ) = 0 := by norm_num [jsRound, Int.floor_eq_iff]
  have hA := both_axes_write 50 (1/5) 520 150 ⟨0, 1/2, 1000, 1000⟩ ⟨0, 0, 500, 300⟩ hor
  have hB := both_axes_write 50 (1/5) 520 150 ⟨1000, 0, 1000, 1000⟩ ⟨0, 0, 500, 300⟩ hor
  refine ⟨hor, ?_, ?_, hB.2.1⟩
  · rw [hA.1]
    norm_num [nextScrollLeft, nextScrollTop, isEdgeLeft, isEdgeRight, isEdgeTop,
      isEdgeBottom, edgeLeft, edgeRight, edgeTop, edgeBottom, clampedWrite, hr14, hrHalf]
  · rw [hB.1]
    norm_num [nextScrollLeft, nextScrollTop, isEdgeLeft, isEdgeRight, isEdgeTop,
      isEdgeBottom, edgeLeft, edgeRight, edgeTop, edgeBottom, clampedWrite, hr1014, hr0]

end AutoScroll
